import Mathlib

/-!
Verification of the fetch-orchestration core of the WeatherScope backend
(`src/backend/main.py`) against its natural-language specification.

Shallow embedding conventions:
* Machine floats are modelled as exact rationals (`ℚ`); the arithmetic the
  claims mention (counts, means, absolute differences) is exact at this scale.
* Wall-clock timing fields (`timing_ms`) are omitted: no claim mentions them.
* Formatted date strings such as `f"{year}-{month:02d}-{day:02d}"` are modelled
  structurally by `ObsDate` (the formatting is injective on its components).
* Asynchronous completion order is an explicit parameter: the per-task
  outcomes of `asyncio.as_completed` are given as a list in arrival order, and
  a raised exception or a `None` result both appear as `Option.none` exactly
  where the Python code swallows them.
* Collaborator I/O (earthaccess search, OPeNDAP reads, the POWER HTTP call) is
  modelled by explicit outcome parameters: a function from year to the search
  result, a `ReadResult` per granule read, a `FetchOutcome` per whole fetch.
-/

/-- Opaque granule handle (the earthaccess result object / its URL). -/
abbrev Handle := String

/-- Structural model of the formatted date string used by `WeatherData.date`. -/
structure ObsDate where
  year : ℤ
  month : ℤ
  day : ℤ
deriving DecidableEq

/-- Embeds the `WeatherData` dataclass (`main.py`): one reconciled day of
weather.  Float fields become exact rationals. -/
structure WeatherData where
  date : ObsDate
  temp_max : ℚ
  temp_min : ℚ
  precip : ℚ
  windspeed : ℚ
deriving DecidableEq

/-- Embeds the `LayerResponse` dataclass (`main.py`): outcome of querying one
source; the wall-clock `timing_ms` field is omitted (no claim concerns it). -/
structure LayerResponse where
  data : List WeatherData
  source : String
  success : Bool
  error : Option String
deriving DecidableEq

/-- Embeds the `FetchMode` enum (`main.py`). -/
inductive FetchMode where
  | precise
  | fast
  | hybrid
deriving DecidableEq

/-- Embeds `calculate_probability` (`main.py`): `0.0` on empty data, otherwise
the count of elements satisfying `condition_func` divided by the length. -/
def calculate_probability (data : List WeatherData) (condition_func : WeatherData → Bool) : ℚ :=
  if data = [] then 0
  else (data.countP condition_func : ℚ) / (data.length : ℚ)

/-- The ten-observation list from the spec's probability example: precipitation
values 0.5, 2.5, 0.2, 1.2, 0.8, 1.5, 0, 0, 0, 0. -/
def probabilityExampleData : List WeatherData :=
  [⟨⟨2015, 6, 1⟩, 0, 0, 1/2, 0⟩,
   ⟨⟨2016, 6, 1⟩, 0, 0, 5/2, 0⟩,
   ⟨⟨2017, 6, 1⟩, 0, 0, 1/5, 0⟩,
   ⟨⟨2018, 6, 1⟩, 0, 0, 6/5, 0⟩,
   ⟨⟨2019, 6, 1⟩, 0, 0, 4/5, 0⟩,
   ⟨⟨2020, 6, 1⟩, 0, 0, 3/2, 0⟩,
   ⟨⟨2021, 6, 1⟩, 0, 0, 0, 0⟩,
   ⟨⟨2022, 6, 1⟩, 0, 0, 0, 0⟩,
   ⟨⟨2023, 6, 1⟩, 0, 0, 0, 0⟩,
   ⟨⟨2024, 6, 1⟩, 0, 0, 0, 0⟩]

/-! ### Layer 1: `EarthdataService` -/

/-- The number of `Option.some` entries among the per-task outcomes: the count
of per-year extractions that produced a `WeatherData`. -/
def countSome (outcomes : List (Option WeatherData)) : ℕ :=
  outcomes.countP Option.isSome

/-- Embeds the `as_completed` consumption loop of
`EarthdataService._fetch_point_history` (`main.py` lines 229-248): outcomes
arrive in completion order; a successful result is appended; once the
accumulated count reaches `early_return_count` the remaining (still unconsumed)
tasks are cancelled and the results so far are returned immediately. -/
def collectLoop (early_return_count : ℕ) :
    List (Option WeatherData) → List WeatherData → List WeatherData
  | [], results => results
  | none :: rest, results => collectLoop early_return_count rest results
  | some w :: rest, results =>
      let results' := results ++ [w]
      if early_return_count ≤ results'.length then results'
      else collectLoop early_return_count rest results'

/-- `list(range(start_year, end_year))`. -/
def year_list (start_year end_year : ℤ) : List ℤ :=
  (List.range (end_year - start_year).toNat).map (fun i : ℕ => start_year + (i : ℤ))

/-- The year order used by `_fetch_point_history`: `range(start_year,
current_year)` reversed (prefer recent years first). -/
def year_range_rev (start_year current_year : ℤ) : List ℤ :=
  (year_list start_year current_year).reverse

/-- The years for which `_fetch_point_history` launches an extraction task:
those with at least one granule handle (`if imerg_file or merra_file`). -/
def launched_years (start_year current_year : ℤ)
    (imerg_map merra_map : ℤ → Option Handle) : List ℤ :=
  (year_range_rev start_year current_year).filter
    (fun y => (imerg_map y).isSome || (merra_map y).isSome)

/-- The result-collection phase of `_fetch_point_history`, as a function of
the completion-order outcomes of the launched tasks. -/
def fetch_point_history_collect (early_return_count : ℕ)
    (outcomes : List (Option WeatherData)) : List WeatherData :=
  collectLoop early_return_count outcomes []

/-- Source label used by `EarthdataService.fetch_with_timeout`. -/
def layer1SourceLabel : String := "NASA GPM IMERG + MERRA-2 (S3 OPENDAP)"

/-- Outcome of awaiting `_fetch_point_history` under `asyncio.wait_for`:
the data list, an `asyncio.TimeoutError`, or some other exception. -/
inductive FetchOutcome where
  | ok (data : List WeatherData)
  | timeout
  | failure (msg : String)
deriving DecidableEq

/-- The success threshold of `fetch_with_timeout` (`main.py` line 181):
`max(3, min(self.early_return_count, years_back))`. -/
def minViableCount (early_return_count years_back : ℕ) : ℕ :=
  max 3 (min early_return_count years_back)

/-- Embeds `EarthdataService.fetch_with_timeout` (`main.py` lines 166-193) as a
function of the awaited outcome: on completion, success iff the data count
reaches `minViableCount`; on timeout or error, a failed response with the
corresponding error string.  The error string's interpolated count is dropped
(`f"Insufficient data ({len(data)} points)"` becomes `"Insufficient data"`). -/
def fetch_with_timeout (early_return_count years_back : ℕ) : FetchOutcome → LayerResponse
  | .ok data =>
      if minViableCount early_return_count years_back ≤ data.length then
        ⟨data, layer1SourceLabel, true, none⟩
      else
        ⟨data, layer1SourceLabel, false, some "Insufficient data"⟩
  | .timeout => ⟨[], layer1SourceLabel, false, some "Timeout"⟩
  | .failure msg => ⟨[], layer1SourceLabel, false, some msg⟩

/-! ### Per-year extraction (`_extract_for_year_blocking`) -/

/-- Outcome of one blocking granule read: either the read raised (caught and
logged by the caller) or it returned a value. -/
inductive ReadResult (α : Type) where
  | failed
  | ok (v : α)
deriving DecidableEq

/-- The precipitation value obtained by `_extract_for_year_blocking`: a read is
attempted only when an IMERG handle exists, and a raised read is caught and
treated as absence (`main.py` lines 381-387). -/
def precip_value (imerg_file : Option Handle) (imerg_read : ReadResult (Option ℚ)) : Option ℚ :=
  match imerg_file with
  | none => none
  | some _ =>
      match imerg_read with
      | .failed => none
      | .ok p => p

/-- The `(tmax, tmin, wind)` triple obtained from the MERRA-2 read: attempted
only when a MERRA handle exists; a raised read is caught and treated as
absence of all three (`main.py` lines 389-397). -/
def merra_values (merra_file : Option Handle)
    (merra_read : ReadResult (Option ℚ × Option ℚ × Option ℚ)) :
    Option ℚ × Option ℚ × Option ℚ :=
  match merra_file with
  | none => (none, none, none)
  | some _ =>
      match merra_read with
      | .failed => (none, none, none)
      | .ok v => v

/-- The temperature pair kept by `_extract_for_year_blocking`: only set when
both `tmax` and `tmin` were read (`if tmax is not None and tmin is not None`). -/
def temp_values (merra_file : Option Handle)
    (merra_read : ReadResult (Option ℚ × Option ℚ × Option ℚ)) : Option (ℚ × ℚ) :=
  match (merra_values merra_file merra_read).1, (merra_values merra_file merra_read).2.1 with
  | some tmax, some tmin => some (tmax, tmin)
  | _, _ => none

/-- The wind speed kept by `_extract_for_year_blocking`. -/
def wind_value (merra_file : Option Handle)
    (merra_read : ReadResult (Option ℚ × Option ℚ × Option ℚ)) : Option ℚ :=
  (merra_values merra_file merra_read).2.2

/-- Embeds `EarthdataService._extract_for_year_blocking` (`main.py` lines
360-406): returns `None` when `precip is None and temp_max is None`, otherwise
a `WeatherData` whose missing fields default to `0.0` (`x or 0.0`). -/
def extract_for_year_blocking (year month day : ℤ) (imerg_file merra_file : Option Handle)
    (imerg_read : ReadResult (Option ℚ))
    (merra_read : ReadResult (Option ℚ × Option ℚ × Option ℚ)) : Option WeatherData :=
  let precip := precip_value imerg_file imerg_read
  let temps := temp_values merra_file merra_read
  let windspeed := wind_value merra_file merra_read
  if precip = none ∧ temps = none then none
  else
    some ⟨⟨year, month, day⟩,
      (temps.map Prod.fst).getD 0,
      (temps.map Prod.snd).getD 0,
      precip.getD 0,
      windspeed.getD 0⟩

/-- Modelled from the claim's wording for C5: the precipitation variable group
"yields data". -/
def claimPrecipGroupYields (imerg_file : Option Handle)
    (imerg_read : ReadResult (Option ℚ)) : Prop :=
  (precip_value imerg_file imerg_read).isSome = true

/-- Modelled from the claim's wording for C5: the temperature/wind variable
group "yields data" — at least one of `tmax`, `tmin`, `wind` was read. -/
def claimTempWindGroupYields (merra_file : Option Handle)
    (merra_read : ReadResult (Option ℚ × Option ℚ × Option ℚ)) : Prop :=
  (merra_values merra_file merra_read).1.isSome = true ∨
  (merra_values merra_file merra_read).2.1.isSome = true ∨
  (merra_values merra_file merra_read).2.2.isSome = true

/-! ### Search cache (`_fetch_point_history` lines 198-212, `_search_for_years`) -/

/-- The canonical cache key of `_fetch_point_history`:
`f"yr_{start_year}_{current_year}_{month:02d}{day:02d}_{round(lat,4)}_{round(lon,4)}"`,
modelled structurally (the formatting is injective on its components). -/
structure CacheKey where
  start_year : ℤ
  current_year : ℤ
  month : ℤ
  day : ℤ
  lat4 : ℚ
  lon4 : ℚ
deriving DecidableEq

/-- Rounding to four decimal places (`round(lat, 4)`). -/
def round4 (q : ℚ) : ℚ := ((round (q * 10000) : ℤ) : ℚ) / 10000

/-- Builds the canonical cache key. -/
def cache_key (start_year current_year month day : ℤ) (lat lon : ℚ) : CacheKey :=
  ⟨start_year, current_year, month, day, round4 lat, round4 lon⟩

/-- The two granule variables searched per year (`GPM_3IMERGDF`, `M2T1NXSLV`). -/
inductive GranVar where
  | imerg
  | merra
deriving DecidableEq

/-- A `_search_cache` entry: the two per-year granule maps plus the creation
timestamp (`(imerg_map, merra_map, time.time())`). -/
structure GranuleCacheEntry where
  imerg_map : ℤ → Option Handle
  merra_map : ℤ → Option Handle
  ts : ℚ

/-- Embeds `_search_for_years` (per-year branch, `main.py` lines 263-316) as a
function of the per-(year, variable) search outcomes `imerg_env`/`merra_env`:
for every year of `range(start_year, end_year)` both variables are searched,
and a year appears in a map exactly when its search returned a result. -/
def search_for_years (start_year end_year : ℤ)
    (imerg_env merra_env : ℤ → Option Handle) :
    (ℤ → Option Handle) × (ℤ → Option Handle) :=
  (fun y => if start_year ≤ y ∧ y < end_year then imerg_env y else none,
   fun y => if start_year ≤ y ∧ y < end_year then merra_env y else none)

/-- The (year, variable) pairs for which `_search_for_years` issues an
underlying `earthaccess.search_data` call: both variables for every year of
the requested range. -/
def searched_pairs (start_year end_year : ℤ) : List (ℤ × GranVar) :=
  (year_list start_year end_year).flatMap
    (fun y => [(y, GranVar.imerg), (y, GranVar.merra)])

/-- `self._search_cache[cache_key] = entry`. -/
def cache_update (cache : CacheKey → Option GranuleCacheEntry) (key : CacheKey)
    (entry : GranuleCacheEntry) : CacheKey → Option GranuleCacheEntry :=
  fun k => if k = key then some entry else cache k

/-- Embeds the cache-resolution prologue of `_fetch_point_history` (`main.py`
lines 201-212): on a hit younger than 600 seconds the stored maps are returned
and no search is issued; on a miss or an expired entry a fresh search is
performed for every (year, variable) pair and the entry is replaced with the
new maps and the current timestamp.  Returns the maps, the updated cache, and
the list of (year, variable) pairs actually searched. -/
def resolve_granules (cache : CacheKey → Option GranuleCacheEntry) (key : CacheKey)
    (now : ℚ) (start_year end_year : ℤ) (imerg_env merra_env : ℤ → Option Handle) :
    ((ℤ → Option Handle) × (ℤ → Option Handle)) ×
      (CacheKey → Option GranuleCacheEntry) × List (ℤ × GranVar) :=
  match cache key with
  | some entry =>
      if now - entry.ts < 600 then
        ((entry.imerg_map, entry.merra_map), cache, [])
      else
        let fresh := search_for_years start_year end_year imerg_env merra_env
        (fresh, cache_update cache key ⟨fresh.1, fresh.2, now⟩,
          searched_pairs start_year end_year)
  | none =>
      let fresh := search_for_years start_year end_year imerg_env merra_env
      (fresh, cache_update cache key ⟨fresh.1, fresh.2, now⟩,
        searched_pairs start_year end_year)

/-- The state stored by `EarthdataService.__init__` (`main.py` lines 129-147).
The asyncio semaphore (whose capacity is `max_concurrency`), the coordinate
cache and the session flag are runtime I/O objects and are omitted; note that
no field holds the `cache_ttl_seconds` constructor parameter, exactly as in
the source, where `self.cache_ttl_seconds` is never assigned. -/
structure EarthdataServiceState where
  max_concurrency : ℕ
  early_return_count : ℕ
  search_radius_deg : ℚ
  per_year_search_first : Bool
  search_cache : CacheKey → Option GranuleCacheEntry

/-- Embeds `EarthdataService.__init__`: the `cache_ttl_seconds` parameter is
accepted but never stored. -/
def EarthdataService_init (max_concurrency early_return_count : ℕ)
    (search_radius_deg : ℚ) (per_year_search_first : Bool)
    (cache_ttl_seconds : ℕ) : EarthdataServiceState :=
  { max_concurrency := max_concurrency
    early_return_count := early_return_count
    search_radius_deg := search_radius_deg
    per_year_search_first := per_year_search_first
    search_cache := fun _ => none }

/-- Cache resolution as performed through a service instance's own
`_search_cache` state. -/
def service_resolve (s : EarthdataServiceState) (key : CacheKey) (now : ℚ)
    (start_year end_year : ℤ) (imerg_env merra_env : ℤ → Option Handle) :
    ((ℤ → Option Handle) × (ℤ → Option Handle)) ×
      (CacheKey → Option GranuleCacheEntry) × List (ℤ × GranVar) :=
  resolve_granules s.search_cache key now start_year end_year imerg_env merra_env

/-! ### Layer 2: `POWERService` -/

/-- Embeds `POWERService._fetch_power_data` (`main.py` lines 1054-1077) after
the HTTP response has been decoded: the four per-date maps are modelled as
functions from year to the optional reported value (the date key is determined
by the year, since month and day are fixed).  A year is considered only when
one of the `T2M_MAX`, `PRECTOTCORR`, `WS10M` maps has its key; missing values
default to `0.0`; the observation is appended only when at least one of the
four defaulted values is nonzero (`any([...])`). -/
def fetch_power_data (start_year current_year month day : ℤ)
    (t2m_max t2m_min precip windspeed : ℤ → Option ℚ) : List WeatherData :=
  (year_list start_year current_year).filterMap fun year =>
    if (t2m_max year).isSome || (precip year).isSome || (windspeed year).isSome then
      let temp_max_val := (t2m_max year).getD 0
      let temp_min_val := (t2m_min year).getD 0
      let precip_val := (precip year).getD 0
      let windspeed_val := (windspeed year).getD 0
      if temp_max_val ≠ 0 ∨ temp_min_val ≠ 0 ∨ precip_val ≠ 0 ∨ windspeed_val ≠ 0 then
        some ⟨⟨year, month, day⟩, temp_max_val, temp_min_val, precip_val, windspeed_val⟩
      else none
    else none

/-! ### Layer 3: `HybridOrchestrator` -/

/-- Summary of the primary result in a built response. -/
structure PrimarySummary where
  data : List WeatherData
  source : String
  success : Bool
deriving DecidableEq

/-- The response dict built by `_build_response` for FAST and PRECISE modes. -/
structure SimpleResponse where
  mode : FetchMode
  primary : PrimarySummary
  fallback_used : Bool
  fallback_reason : Option String
deriving DecidableEq

/-- The `layer1` sub-dict of a HYBRID response. -/
structure Layer1Summary where
  data : List WeatherData
  source : String
  success : Bool
  error : Option String
  data_points : ℕ
deriving DecidableEq

/-- The `layer2` sub-dict of a HYBRID response (the source builds no `error`
key for layer 2). -/
structure Layer2Summary where
  data : List WeatherData
  source : String
  success : Bool
  data_points : ℕ
deriving DecidableEq

/-- The `comparison` sub-dict of a HYBRID response. -/
inductive Comparison where
  | unavailable
  | available (avg_precip_diff_mm : ℚ) (avg_temp_diff_c : ℚ)
      (data_points_l1 data_points_l2 : ℕ)
deriving DecidableEq

/-- The response dict built by `_build_response` for HYBRID mode. -/
structure HybridResponse where
  layer1 : Layer1Summary
  layer2 : Layer2Summary
  comparison : Comparison
  primary : PrimarySummary
deriving DecidableEq

/-- `np.mean` over an exact list of rationals. -/
def listMean (l : List ℚ) : ℚ := l.sum / (l.length : ℚ)

/-- `round(x, 2)`: rounding to two decimal places (the Python tie-breaking
rule differs only on exact hundredth-ties, which no claim exercises). -/
def round2 (q : ℚ) : ℚ := ((round (q * 100) : ℤ) : ℚ) / 100

/-- Embeds `HybridOrchestrator._compare_layers` (`main.py` lines 1311-1334). -/
def compare_layers (layer1 layer2 : Option LayerResponse) : Comparison :=
  match layer1, layer2 with
  | some l1, some l2 =>
      if l1.success = true ∧ l2.success = true then
        if l1.data.length = 0 ∨ l2.data.length = 0 then .unavailable
        else
          .available
            (round2 |listMean (l1.data.map WeatherData.precip) -
              listMean (l2.data.map WeatherData.precip)|)
            (round2 |listMean (l1.data.map WeatherData.temp_max) -
              listMean (l2.data.map WeatherData.temp_max)|)
            l1.data.length l2.data.length
      else .unavailable
  | _, _ => .unavailable

/-- The primary-selection logic of `_build_response` (`main.py` lines
1261-1270): layer 1 if it succeeded with nonempty data, else layer 2 if
present, else whichever exists. -/
def choose_primary (layer1_result layer2_result : Option LayerResponse) :
    Option LayerResponse :=
  match layer1_result with
  | some l1 =>
      if l1.success = true ∧ l1.data ≠ [] then some l1
      else
        match layer2_result with
        | some l2 => some l2
        | none => some l1
  | none => layer2_result

/-- The `primary` sub-dict of a built response. -/
def primary_summary : Option LayerResponse → PrimarySummary
  | some r => ⟨r.data, r.source, r.success⟩
  | none => ⟨[], "No data", false⟩

/-- The `layer1` sub-dict of a HYBRID response. -/
def layer1_summary : Option LayerResponse → Layer1Summary
  | some r => ⟨r.data, r.source, r.success, r.error, r.data.length⟩
  | none => ⟨[], "NASA GPM IMERG + MERRA-2", false, some "Not executed", 0⟩

/-- The `layer2` sub-dict of a HYBRID response. -/
def layer2_summary : Option LayerResponse → Layer2Summary
  | some r => ⟨r.data, r.source, r.success, r.data.length⟩
  | none => ⟨[], "NASA POWER API", false, 0⟩

/-- Embeds the non-HYBRID branch of `HybridOrchestrator._build_response`
(`main.py` lines 1298-1309). -/
def build_response_simple (mode : FetchMode) (layer1_result layer2_result : Option LayerResponse)
    (fallback_used : Bool) (fallback_reason : Option String) : SimpleResponse :=
  ⟨mode, primary_summary (choose_primary layer1_result layer2_result),
    fallback_used, fallback_reason⟩

/-- Embeds the HYBRID branch of `HybridOrchestrator._build_response`
(`main.py` lines 1272-1297). -/
def build_response_hybrid (layer1_result layer2_result : Option LayerResponse) :
    HybridResponse :=
  ⟨layer1_summary layer1_result, layer2_summary layer2_result,
    compare_layers layer1_result layer2_result,
    primary_summary (choose_primary layer1_result layer2_result)⟩

/-- Embeds `HybridOrchestrator._fetch_fast_mode` (`main.py` lines 1109-1120). -/
def fetch_fast_mode (layer2_response : LayerResponse) : SimpleResponse :=
  build_response_simple .fast none (some layer2_response) false none

/-- Outcome of awaiting the layer 1 task under the orchestrator's outer
`asyncio.wait_for`: the inner fetch completed (with its own outcome), or the
outer deadline expired first. -/
inductive L1Await where
  | completed (o : FetchOutcome)
  | outerTimeout
deriving DecidableEq

/-- The placeholder response built on the PRECISE-mode outer timeout
(`main.py` lines 1163-1169). -/
def timeout45Response : LayerResponse :=
  ⟨[], "NASA GPM IMERG + MERRA-2 (S3 Cloud)", false, some "Timeout after 45 seconds"⟩

/-- The placeholder response built on the HYBRID-mode outer timeout
(`main.py` lines 1239-1245). -/
def timeout25Response : LayerResponse :=
  ⟨[], "NASA GPM IMERG + MERRA-2 (S3 Cloud)", false, some "Timeout - exceeded 25s limit"⟩

/-- The layer 1 response PRECISE mode ends up holding. -/
def precise_layer1_response (early_return_count years_back : ℕ) : L1Await → LayerResponse
  | .completed o => fetch_with_timeout early_return_count years_back o
  | .outerTimeout => timeout45Response

/-- The layer 1 response HYBRID mode ends up holding. -/
def hybrid_layer1_response (early_return_count years_back : ℕ) : L1Await → LayerResponse
  | .completed o => fetch_with_timeout early_return_count years_back o
  | .outerTimeout => timeout25Response

/-- Python's `x or "No data"` on the optional error string (an absent or empty
error string becomes `"No data"`). -/
def pyOrNoData : Option String → String
  | none => "No data"
  | some s => if s = "" then "No data" else s

/-- Embeds `HybridOrchestrator._fetch_precise_mode` (`main.py` lines
1122-1182) as a function of the layer 1 awaited outcome and of the response
the Fast source would give.  The boolean records whether `self.power.fetch`
was invoked (the fallback path). -/
def fetch_precise_mode (early_return_count years_back : ℕ) (l1 : L1Await)
    (layer2_response : LayerResponse) : SimpleResponse × Bool :=
  let r := precise_layer1_response early_return_count years_back l1
  if r.success = true ∧ r.data ≠ [] then
    (build_response_simple .precise (some r) none false none, false)
  else
    (build_response_simple .precise (some r) (some layer2_response) true
      (some (pyOrNoData r.error)), true)

/-- Modelled from the claim's wording for C2: the precise path "fails, times
out, or returns fewer than the minimum viable count of observations". -/
def precise_failure_condition (early_return_count years_back : ℕ) : L1Await → Prop
  | .completed (.ok data) => data.length < minViableCount early_return_count years_back
  | .completed .timeout => True
  | .completed (.failure _) => True
  | .outerTimeout => True

/-- Embeds `HybridOrchestrator._fetch_hybrid_mode` (`main.py` lines
1184-1249): both layers are always started; after awaiting layer 2 and racing
layer 1, both results are handed to the HYBRID response builder. -/
def fetch_hybrid_mode (early_return_count years_back : ℕ) (l1 : L1Await)
    (layer2_response : LayerResponse) : HybridResponse :=
  build_response_hybrid
    (some (hybrid_layer1_response early_return_count years_back l1))
    (some layer2_response)

/-! ### Theorems -/

/-- The collection loop never returns more observations than there are
successful outcomes. -/
theorem collectLoop_length_le (t : ℕ) (l : List (Option WeatherData))
    (acc : List WeatherData) :
    (collectLoop t l acc).length ≤ acc.length + countSome l := by
  induction l generalizing acc with
  | nil => simp [collectLoop, countSome]
  | cons o rest ih =>
    cases o with
    | none =>
      have := ih acc
      simp only [collectLoop, countSome, List.countP_cons] at this ⊢
      simpa using this
    | some w =>
      simp only [collectLoop]
      split
      · simp only [countSome, List.countP_cons, List.length_append, List.length_cons]
        simp
      · have := ih (acc ++ [w])
        simp only [countSome, List.countP_cons, List.length_append, List.length_cons] at this ⊢
        simp at this ⊢
        omega

/-- If enough successful outcomes are available, the collection loop reaches
the threshold. -/
theorem collectLoop_reach (t : ℕ) (l : List (Option WeatherData))
    (acc : List WeatherData) (h : t ≤ acc.length + countSome l) :
    t ≤ (collectLoop t l acc).length := by
  induction l generalizing acc with
  | nil =>
    simp only [countSome, List.countP_nil, Nat.add_zero] at h
    simpa [collectLoop] using h
  | cons o rest ih =>
    cases o with
    | none =>
      simp only [countSome, List.countP_cons] at h
      simp only [collectLoop]
      exact ih acc (by simpa using h)
    | some w =>
      simp only [collectLoop]
      split
      · simpa using ‹t ≤ (acc ++ [w]).length›
      · refine ih (acc ++ [w]) ?_
        simp only [countSome, List.countP_cons] at h ⊢
        simp at h ⊢
        omega

/-- With a positive threshold and enough successes, the loop stops exactly at
the threshold: it returns immediately upon crossing it. -/
theorem collectLoop_exact (t : ℕ) (l : List (Option WeatherData))
    (acc : List WeatherData) (h0 : acc.length < t) (h : t ≤ acc.length + countSome l) :
    (collectLoop t l acc).length = t := by
  induction l generalizing acc with
  | nil =>
    simp only [countSome, List.countP_nil, Nat.add_zero] at h
    omega
  | cons o rest ih =>
    cases o with
    | none =>
      simp only [countSome, List.countP_cons] at h
      simp only [collectLoop]
      exact ih acc h0 (by simpa using h)
    | some w =>
      simp only [collectLoop]
      split
      · have hle : t ≤ (acc ++ [w]).length := ‹_›
        simp only [List.length_append, List.length_cons, List.length_nil] at hle ⊢
        omega
      · have hlt : ¬ t ≤ (acc ++ [w]).length := ‹_›
        refine ih (acc ++ [w]) ?_ ?_
        · simp only [List.length_append, List.length_cons, List.length_nil] at hlt ⊢
          omega
        · simp only [countSome, List.countP_cons] at h ⊢
          simp at h ⊢
          omega

/-- The number of successes is at most the number of outcomes. -/
theorem countSome_le_length (l : List (Option WeatherData)) : countSome l ≤ l.length :=
  List.countP_le_length _

/-- The launched-task count is at most `years_back`. -/
theorem launched_years_length_le (years_back : ℕ) (current_year : ℤ)
    (imerg_map merra_map : ℤ → Option Handle) :
    (launched_years (current_year - years_back) current_year imerg_map merra_map).length ≤
      years_back := by
  have h1 : (launched_years (current_year - years_back) current_year imerg_map merra_map).length ≤
      (year_range_rev (current_year - years_back) current_year).length :=
    List.length_filter_le _ _
  have h2 : (year_range_rev (current_year - years_back) current_year).length = years_back := by
    rw [year_range_rev, List.length_reverse, year_list, List.length_map, List.length_range]
    omega
  omega

/-- C8: `calculate_probability` returns 0 on the empty list; on the spec's
ten-element example with predicate `precip > 0.1` it returns 0.6 (= 3/5); and
in general it equals the matching count divided by the list length (with the
empty case agreeing, since `0 / 0 = 0` in `ℚ`). -/
theorem calculate_probability_spec :
    (∀ f : WeatherData → Bool, calculate_probability [] f = 0) ∧
    calculate_probability probabilityExampleData
      (fun w => decide ((1 : ℚ)/10 < w.precip)) = 3/5 ∧
    (∀ (data : List WeatherData) (f : WeatherData → Bool),
      calculate_probability data f = (data.countP f : ℚ) / (data.length : ℚ)) := by
  refine ⟨fun f => rfl, ?_, fun data f => ?_⟩
  · unfold calculate_probability
    rw [if_neg (by simp [probabilityExampleData])]
    norm_num [probabilityExampleData, List.countP_cons]
  · by_cases h : data = []
    · subst h; simp [calculate_probability]
    · simp [calculate_probability, h]

/-- C1: the collection phase of `_fetch_point_history` returns between 0 and
`years_back` observations; whenever the number of successful outcomes reaches
`early_return_count`, the returned count is in
`[early_return_count, years_back]` — in fact, for a positive threshold the
loop cancels the still-pending tasks and returns immediately with exactly
`early_return_count` observations. -/
theorem fetch_point_history_bounds
    (early_return_count years_back : ℕ) (current_year : ℤ)
    (imerg_map merra_map : ℤ → Option Handle)
    (outcomes : List (Option WeatherData))
    (hlen : outcomes.length =
      (launched_years (current_year - years_back) current_year imerg_map merra_map).length) :
    (fetch_point_history_collect early_return_count outcomes).length ≤ years_back ∧
    (early_return_count ≤ countSome outcomes →
      early_return_count ≤ (fetch_point_history_collect early_return_count outcomes).length) ∧
    (1 ≤ early_return_count → early_return_count ≤ countSome outcomes →
      (fetch_point_history_collect early_return_count outcomes).length = early_return_count) := by
  have hlaunch := launched_years_length_le years_back current_year imerg_map merra_map
  have hcount := countSome_le_length outcomes
  refine ⟨?_, ?_, ?_⟩
  · have hle := collectLoop_length_le early_return_count outcomes []
    simp only [fetch_point_history_collect, List.length_nil, Nat.zero_add] at hle ⊢
    omega
  · intro h
    have := collectLoop_reach early_return_count outcomes [] (by simpa using h)
    simpa [fetch_point_history_collect] using this
  · intro h1 h2
    have := collectLoop_exact early_return_count outcomes [] (by simpa using h1)
      (by simpa using h2)
    simpa [fetch_point_history_collect] using this

/-- Witness for C1: three launched years (all with IMERG handles), completion
order delivering two successes around one failed extraction, threshold two —
the collector stops at exactly two observations. -/
theorem fetch_point_history_bounds_witness :
    ([some (⟨⟨2023, 1, 1⟩, 0, 0, 0, 0⟩ : WeatherData), none,
        some (⟨⟨2022, 1, 1⟩, 0, 0, 1, 0⟩ : WeatherData)]).length =
      (launched_years ((2024 : ℤ) - (3 : ℕ)) 2024 (fun _ => some "g")
        (fun _ => none)).length ∧
    (fetch_point_history_collect 2 [some ⟨⟨2023, 1, 1⟩, 0, 0, 0, 0⟩, none,
        some ⟨⟨2022, 1, 1⟩, 0, 0, 1, 0⟩]).length = 2 := by
  have h := fetch_point_history_bounds 2 3 2024 (fun _ => some "g") (fun _ => none)
    [some ⟨⟨2023, 1, 1⟩, 0, 0, 0, 0⟩, none, some ⟨⟨2022, 1, 1⟩, 0, 0, 1, 0⟩] (by rfl)
  exact ⟨by rfl, h.2.2 (by decide) (by decide)⟩

/-- C3: in Hybrid mode the returned record always contains both layer
summaries and a comparison, and the primary is the layer 1 result exactly when
layer 1 succeeded with nonempty data, otherwise the layer 2 result. -/
theorem hybrid_mode_response_spec (early_return_count years_back : ℕ)
    (o : L1Await) (layer2_response : LayerResponse) :
    fetch_hybrid_mode early_return_count years_back o layer2_response =
      { layer1 := layer1_summary
          (some (hybrid_layer1_response early_return_count years_back o)),
        layer2 := layer2_summary (some layer2_response),
        comparison := compare_layers
          (some (hybrid_layer1_response early_return_count years_back o))
          (some layer2_response),
        primary := primary_summary (some
          (if (hybrid_layer1_response early_return_count years_back o).success = true ∧
              (hybrid_layer1_response early_return_count years_back o).data ≠ []
           then hybrid_layer1_response early_return_count years_back o
           else layer2_response)) } := by
  by_cases h : (hybrid_layer1_response early_return_count years_back o).success = true ∧
      (hybrid_layer1_response early_return_count years_back o).data ≠ [] <;>
    simp [fetch_hybrid_mode, build_response_hybrid, choose_primary, h]

/-- C4 counterexample: with the default configuration (`early_return_count =
7`, `years_back = 10`) a completed fetch of exactly three observations yields
`success = false`, although the claim's threshold of exactly 3 predicts
success. -/
theorem fetch_with_timeout_claim_counterexample :
    ¬(((fetch_with_timeout 7 10 (FetchOutcome.ok
        [⟨⟨2021, 1, 1⟩, 0, 0, 0, 0⟩, ⟨⟨2022, 1, 1⟩, 0, 0, 0, 0⟩,
         ⟨⟨2023, 1, 1⟩, 0, 0, 0, 0⟩])).success = true) ↔
      3 ≤ ([⟨⟨2021, 1, 1⟩, 0, 0, 0, 0⟩, ⟨⟨2022, 1, 1⟩, 0, 0, 0, 0⟩,
         ⟨⟨2023, 1, 1⟩, 0, 0, 0, 0⟩] : List WeatherData).length) := by
  decide

/-- C4 (amended): a completed fetch succeeds iff the observation count reaches
`max(3, min(early_return_count, years_back))`. -/
theorem fetch_with_timeout_success_iff (early_return_count years_back : ℕ)
    (data : List WeatherData) :
    (fetch_with_timeout early_return_count years_back (FetchOutcome.ok data)).success = true ↔
      minViableCount early_return_count years_back ≤ data.length := by
  simp only [fetch_with_timeout]
  split <;> simp_all

/-- C5 counterexample: with no IMERG handle and a MERRA read that yields only
a wind value, the temperature/wind group yields data yet no Observation is
returned. -/
theorem extract_for_year_claim_counterexample :
    ¬((extract_for_year_blocking 2020 6 1 none (some "granule") ReadResult.failed
        (ReadResult.ok (none, none, some 5))).isSome = true ↔
      (claimPrecipGroupYields none ReadResult.failed ∨
       claimTempWindGroupYields (some "granule") (ReadResult.ok (none, none, some 5)))) := by
  simp only [claimPrecipGroupYields, claimTempWindGroupYields]
  decide

/-- C5 (amended): an Observation is returned iff the precipitation read yields
a value or the temperature read yields both max and min (a wind value alone
does not suffice); missing fields default to 0; and a raised read is treated
exactly as absence of its variable, never failing the whole unit. -/
theorem extract_for_year_spec (year month day : ℤ) (imerg_file merra_file : Option Handle)
    (imerg_read : ReadResult (Option ℚ))
    (merra_read : ReadResult (Option ℚ × Option ℚ × Option ℚ)) :
    (extract_for_year_blocking year month day imerg_file merra_file imerg_read merra_read =
      if (precip_value imerg_file imerg_read).isSome = true ∨
          (temp_values merra_file merra_read).isSome = true then
        some ⟨⟨year, month, day⟩,
          ((temp_values merra_file merra_read).map Prod.fst).getD 0,
          ((temp_values merra_file merra_read).map Prod.snd).getD 0,
          (precip_value imerg_file imerg_read).getD 0,
          (wind_value merra_file merra_read).getD 0⟩
      else none) ∧
    extract_for_year_blocking year month day imerg_file merra_file ReadResult.failed
        merra_read =
      extract_for_year_blocking year month day imerg_file merra_file (ReadResult.ok none)
        merra_read ∧
    extract_for_year_blocking year month day imerg_file merra_file imerg_read
        ReadResult.failed =
      extract_for_year_blocking year month day imerg_file merra_file imerg_read
        (ReadResult.ok (none, none, none)) := by
  refine ⟨?_, ?_, ?_⟩
  · rcases hp : precip_value imerg_file imerg_read with _ | v <;>
      rcases ht : temp_values merra_file merra_read with _ | p <;>
        simp [extract_for_year_blocking, hp, ht]
  · cases imerg_file <;> rfl
  · cases merra_file <;> rfl

/-- C2: Precise mode invokes the Fast source iff the precise path failed,
timed out, or returned fewer than the minimum viable count; the response's
`fallback_used` flag equals the invocation flag, and whenever the fallback is
used the `fallback_reason` carries the precise path's failure description. -/
theorem precise_mode_fallback_spec (early_return_count years_back : ℕ)
    (l1 : L1Await) (layer2_response : LayerResponse) :
    ((fetch_precise_mode early_return_count years_back l1 layer2_response).2 = true ↔
      precise_failure_condition early_return_count years_back l1) ∧
    (fetch_precise_mode early_return_count years_back l1 layer2_response).1.fallback_used =
      (fetch_precise_mode early_return_count years_back l1 layer2_response).2 ∧
    ((fetch_precise_mode early_return_count years_back l1 layer2_response).2 = true →
      (fetch_precise_mode early_return_count years_back l1 layer2_response).1.fallback_reason =
        some (pyOrNoData
          (precise_layer1_response early_return_count years_back l1).error)) := by
  rcases l1 with o | _
  · rcases o with data | _ | msg
    · by_cases h : minViableCount early_return_count years_back ≤ data.length
      · have hne : data ≠ [] := by
          intro hnil
          rw [hnil] at h
          simp only [List.length_nil] at h
          have h3 : 3 ≤ minViableCount early_return_count years_back :=
            le_max_left _ _
          omega
        simp only [fetch_precise_mode, precise_layer1_response, fetch_with_timeout,
          if_pos h, precise_failure_condition, build_response_simple]
        simp [hne]
        omega
      · simp only [fetch_precise_mode, precise_layer1_response, fetch_with_timeout,
          if_neg h, precise_failure_condition, build_response_simple]
        simp
        omega
    · simp [fetch_precise_mode, precise_layer1_response, fetch_with_timeout,
        precise_failure_condition, build_response_simple]
    · simp [fetch_precise_mode, precise_layer1_response, fetch_with_timeout,
        precise_failure_condition, build_response_simple]
  · simp [fetch_precise_mode, precise_layer1_response, timeout45Response,
      precise_failure_condition, build_response_simple]

/-- Witness for C2: an empty completed precise fetch under the default
configuration triggers the fallback and reports the insufficiency. -/
theorem precise_mode_fallback_witness :
    (fetch_precise_mode 7 10 (L1Await.completed (FetchOutcome.ok []))
        ⟨[⟨⟨2020, 1, 1⟩, 1, 0, 2, 3⟩], "NASA POWER API (Climatology)", true, none⟩).2 =
      true ∧
    (fetch_precise_mode 7 10 (L1Await.completed (FetchOutcome.ok []))
        ⟨[⟨⟨2020, 1, 1⟩, 1, 0, 2, 3⟩], "NASA POWER API (Climatology)", true,
          none⟩).1.fallback_reason = some "Insufficient data" := by
  have h := precise_mode_fallback_spec 7 10 (L1Await.completed (FetchOutcome.ok []))
    ⟨[⟨⟨2020, 1, 1⟩, 1, 0, 2, 3⟩], "NASA POWER API (Climatology)", true, none⟩
  have h2 := h.1.mpr (by
    show ([] : List WeatherData).length < minViableCount 7 10
    decide)
  exact ⟨h2, (h.2.2 h2).trans (by decide)⟩

/-- C6: the layer comparison is available iff both results are present,
succeeded, and have nonempty data; when available it reports the rounded
absolute differences of the mean precipitation and of the mean max
temperature of the two observation lists, together with both point counts. -/
theorem compare_layers_spec (layer1 layer2 : Option LayerResponse) :
    (∀ l1 l2 : LayerResponse, layer1 = some l1 → layer2 = some l2 →
      l1.success = true → l2.success = true → l1.data ≠ [] → l2.data ≠ [] →
      compare_layers layer1 layer2 =
        Comparison.available
          (round2 |listMean (l1.data.map WeatherData.precip) -
            listMean (l2.data.map WeatherData.precip)|)
          (round2 |listMean (l1.data.map WeatherData.temp_max) -
            listMean (l2.data.map WeatherData.temp_max)|)
          l1.data.length l2.data.length) ∧
    (compare_layers layer1 layer2 ≠ Comparison.unavailable →
      ∃ l1 l2 : LayerResponse, layer1 = some l1 ∧ layer2 = some l2 ∧
        l1.success = true ∧ l2.success = true ∧ l1.data ≠ [] ∧ l2.data ≠ []) := by
  constructor
  · rintro l1 l2 rfl rfl h1 h2 hd1 hd2
    simp only [compare_layers]
    rw [if_pos ⟨h1, h2⟩, if_neg]
    simp only [List.length_eq_zero]
    exact not_or_intro hd1 hd2
  · intro h
    rcases layer1 with _ | l1
    · simp [compare_layers] at h
    rcases layer2 with _ | l2
    · simp [compare_layers] at h
    refine ⟨l1, l2, rfl, rfl, ?_⟩
    by_cases hs : l1.success = true ∧ l2.success = true
    · by_cases hd : l1.data.length = 0 ∨ l2.data.length = 0
      · exfalso
        apply h
        simp only [compare_layers]
        rw [if_pos hs, if_pos hd]
      · push_neg at hd
        refine ⟨hs.1, hs.2, ?_, ?_⟩
        · simpa [List.length_eq_zero] using hd.1
        · simpa [List.length_eq_zero] using hd.2
    · exfalso
      apply h
      simp only [compare_layers]
      rw [if_neg hs]

/-- Witness for C6: two successful single-observation results give an
available comparison with the expected aggregate statistics. -/
theorem compare_layers_spec_witness :
    compare_layers (some ⟨[⟨⟨2020, 1, 1⟩, 10, 0, 2, 0⟩], "l1", true, none⟩)
        (some ⟨[⟨⟨2020, 1, 1⟩, 8, 0, 1, 0⟩], "l2", true, none⟩) =
      Comparison.available 1 2 1 1 := by
  have h := (compare_layers_spec (some ⟨[⟨⟨2020, 1, 1⟩, 10, 0, 2, 0⟩], "l1", true, none⟩)
      (some ⟨[⟨⟨2020, 1, 1⟩, 8, 0, 1, 0⟩], "l2", true, none⟩)).1
    ⟨[⟨⟨2020, 1, 1⟩, 10, 0, 2, 0⟩], "l1", true, none⟩
    ⟨[⟨⟨2020, 1, 1⟩, 8, 0, 1, 0⟩], "l2", true, none⟩
    rfl rfl rfl rfl (by simp) (by simp)
  rw [h]
  norm_num [listMean, round2]

/-- Every year of the requested range is searched for both variables. -/
theorem mem_searched_pairs (start_year end_year y : ℤ)
    (hy1 : start_year ≤ y) (hy2 : y < end_year) :
    (y, GranVar.imerg) ∈ searched_pairs start_year end_year ∧
    (y, GranVar.merra) ∈ searched_pairs start_year end_year := by
  have hy : y ∈ year_list start_year end_year := by
    simp only [year_list, List.mem_map, List.mem_range]
    exact ⟨(y - start_year).toNat, by omega, by omega⟩
  constructor <;>
    · simp only [searched_pairs, List.mem_flatMap]
      exact ⟨y, hy, by simp⟩

/-- C7: after a first resolve at time `t0` for a fresh canonical key, a second
resolve for the same key at time `t1` within the 600-second TTL returns the
stored maps, issues no search, and leaves the cache unchanged; after TTL
expiry it searches every (year, variable) pair afresh and replaces the cache
entry with the new maps and the current timestamp. -/
theorem search_cache_ttl_spec (cache0 : CacheKey → Option GranuleCacheEntry)
    (key : CacheKey) (t0 t1 : ℚ) (start_year end_year : ℤ)
    (envI envM envI2 envM2 : ℤ → Option Handle)
    (maps1 maps2 : (ℤ → Option Handle) × (ℤ → Option Handle))
    (cache1 cache2 : CacheKey → Option GranuleCacheEntry)
    (searched1 searched2 : List (ℤ × GranVar))
    (hmiss : cache0 key = none)
    (h1 : resolve_granules cache0 key t0 start_year end_year envI envM =
      (maps1, cache1, searched1))
    (h2 : resolve_granules cache1 key t1 start_year end_year envI2 envM2 =
      (maps2, cache2, searched2)) :
    (t1 - t0 < 600 → maps2 = maps1 ∧ searched2 = [] ∧ cache2 = cache1) ∧
    (600 ≤ t1 - t0 →
      searched2 = searched_pairs start_year end_year ∧
      maps2 = search_for_years start_year end_year envI2 envM2 ∧
      cache2 key = some ⟨maps2.1, maps2.2, t1⟩ ∧
      ∀ y : ℤ, start_year ≤ y → y < end_year →
        (y, GranVar.imerg) ∈ searched2 ∧ (y, GranVar.merra) ∈ searched2) := by
  simp only [resolve_granules, hmiss] at h1
  have hm1 : maps1 = search_for_years start_year end_year envI envM :=
    (congrArg Prod.fst h1).symm
  have hc1 : cache1 = cache_update cache0 key
      ⟨(search_for_years start_year end_year envI envM).1,
       (search_for_years start_year end_year envI envM).2, t0⟩ :=
    (congrArg (fun p => p.2.1) h1).symm
  have hentry : cache1 key = some
      ⟨(search_for_years start_year end_year envI envM).1,
       (search_for_years start_year end_year envI envM).2, t0⟩ := by
    rw [hc1, cache_update, if_pos rfl]
  simp only [resolve_granules, hentry] at h2
  constructor
  · intro httl
    rw [if_pos (by simpa using httl)] at h2
    refine ⟨?_, ?_, ?_⟩
    · have := (congrArg Prod.fst h2)
      rw [hm1]
      exact this.symm
    · exact (congrArg (fun p => p.2.2) h2).symm
    · exact (congrArg (fun p => p.2.1) h2).symm
  · intro httl
    rw [if_neg (by simpa using not_lt.mpr httl)] at h2
    have hs2 : searched2 = searched_pairs start_year end_year :=
      (congrArg (fun p => p.2.2) h2).symm
    have hm2 : maps2 = search_for_years start_year end_year envI2 envM2 :=
      (congrArg Prod.fst h2).symm
    have hc2 : cache2 = cache_update cache1 key
        ⟨(search_for_years start_year end_year envI2 envM2).1,
         (search_for_years start_year end_year envI2 envM2).2, t1⟩ :=
      (congrArg (fun p => p.2.1) h2).symm
    refine ⟨hs2, hm2, ?_, ?_⟩
    · rw [hc2, cache_update, if_pos rfl, hm2]
    · intro y hy1 hy2
      rw [hs2]
      exact mem_searched_pairs start_year end_year y hy1 hy2

/-- Witness for C7: a miss at time 0 followed by a resolve at time 700
(beyond the 600-second TTL) issues a fresh search for every (year, variable)
pair of the range 2020-2022. -/
theorem search_cache_ttl_spec_witness :
    (600 : ℚ) ≤ 700 - 0 ∧
    (resolve_granules
        (resolve_granules (fun _ => none) ⟨2015, 2025, 6, 1, 0, 0⟩ 0 2020 2023
          (fun _ => some "gi") (fun _ => none)).2.1
        ⟨2015, 2025, 6, 1, 0, 0⟩ 700 2020 2023 (fun _ => none)
        (fun _ => some "gm")).2.2 = searched_pairs 2020 2023 := by
  refine ⟨by norm_num, ?_⟩
  have h := (search_cache_ttl_spec (fun _ => none) ⟨2015, 2025, 6, 1, 0, 0⟩ 0 700 2020 2023
      (fun _ => some "gi") (fun _ => none) (fun _ => none) (fun _ => some "gm")
      _ _ _ _ _ _ rfl rfl rfl).2 (by norm_num)
  exact h.1

/-- C9: the `cache_ttl_seconds` constructor parameter is never stored — two
services constructed with different values are equal states — and cache
expiry always compares the entry's age against the fixed constant 600: a
younger entry is served from the cache with no search, an older one triggers
a search of every (year, variable) pair, whatever TTL was passed. -/
theorem cache_ttl_parameter_spec (max_concurrency early_return_count : ℕ)
    (search_radius_deg : ℚ) (per_year_search_first : Bool) (ttl1 ttl2 : ℕ) :
    EarthdataService_init max_concurrency early_return_count search_radius_deg
        per_year_search_first ttl1 =
      EarthdataService_init max_concurrency early_return_count search_radius_deg
        per_year_search_first ttl2 ∧
    (∀ (cache : CacheKey → Option GranuleCacheEntry) (key : CacheKey)
        (entry : GranuleCacheEntry) (now : ℚ) (start_year end_year : ℤ)
        (envI envM : ℤ → Option Handle),
      cache key = some entry →
      (now - entry.ts < 600 →
        service_resolve
          { EarthdataService_init max_concurrency early_return_count search_radius_deg
              per_year_search_first ttl1 with search_cache := cache }
          key now start_year end_year envI envM =
          ((entry.imerg_map, entry.merra_map), cache, [])) ∧
      (600 ≤ now - entry.ts →
        (service_resolve
          { EarthdataService_init max_concurrency early_return_count search_radius_deg
              per_year_search_first ttl1 with search_cache := cache }
          key now start_year end_year envI envM).2.2 =
          searched_pairs start_year end_year)) := by
  refine ⟨rfl, ?_⟩
  intro cache key entry now start_year end_year envI envM hc
  constructor
  · intro h
    show resolve_granules cache key now start_year end_year envI envM = _
    simp only [resolve_granules, hc]
    rw [if_pos h]
  · intro h
    show (resolve_granules cache key now start_year end_year envI envM).2.2 = _
    simp only [resolve_granules, hc]
    rw [if_neg (not_lt.mpr h)]

/-- Witness for C9: through a service constructed with `cache_ttl_seconds =
600`, a 100-second-old entry is a hit served without searching. -/
theorem cache_ttl_parameter_spec_witness :
    ((fun _ => some (⟨fun _ => none, fun _ => none, 0⟩ : GranuleCacheEntry))
        (⟨2015, 2025, 6, 1, 0, 0⟩ : CacheKey)) =
      some (⟨fun _ => none, fun _ => none, 0⟩ : GranuleCacheEntry) ∧
    (100 : ℚ) - (0 : ℚ) < 600 ∧
    service_resolve
        { EarthdataService_init 6 7 (3/25) true 600 with
          search_cache := fun _ => some ⟨fun _ => none, fun _ => none, 0⟩ }
        ⟨2015, 2025, 6, 1, 0, 0⟩ 100 2015 2025 (fun _ => none) (fun _ => none) =
      (((⟨fun _ => none, fun _ => none, 0⟩ : GranuleCacheEntry).imerg_map,
        (⟨fun _ => none, fun _ => none, 0⟩ : GranuleCacheEntry).merra_map),
        (fun _ => some ⟨fun _ => none, fun _ => none, 0⟩), []) := by
  refine ⟨rfl, by norm_num, ?_⟩
  exact ((cache_ttl_parameter_spec 6 7 (3/25) true 600 601).2
      (fun _ => some ⟨fun _ => none, fun _ => none, 0⟩) ⟨2015, 2025, 6, 1, 0, 0⟩
      ⟨fun _ => none, fun _ => none, 0⟩ 100 2015 2025 (fun _ => none) (fun _ => none)
      rfl).1 (by norm_num)

/-- C10: every observation `_fetch_power_data` returns has at least one
nonzero value among its four fields, and a year whose four reported values
all default to zero contributes no observation for its date. -/
theorem power_data_nonzero_filter (start_year current_year month day : ℤ)
    (t2m_max t2m_min precip windspeed : ℤ → Option ℚ) :
    (∀ w ∈ fetch_power_data start_year current_year month day t2m_max t2m_min precip
        windspeed,
      ¬(w.temp_max = 0 ∧ w.temp_min = 0 ∧ w.precip = 0 ∧ w.windspeed = 0)) ∧
    (∀ y : ℤ, (t2m_max y).getD 0 = 0 → (t2m_min y).getD 0 = 0 → (precip y).getD 0 = 0 →
      (windspeed y).getD 0 = 0 →
      ∀ w ∈ fetch_power_data start_year current_year month day t2m_max t2m_min precip
          windspeed,
        w.date ≠ ⟨y, month, day⟩) := by
  constructor
  · intro w hw
    simp only [fetch_power_data, List.mem_filterMap] at hw
    obtain ⟨a, -, ha⟩ := hw
    by_cases h1 : ((t2m_max a).isSome || (precip a).isSome || (windspeed a).isSome) = true
    · rw [if_pos h1] at ha
      by_cases h2 : (t2m_max a).getD 0 ≠ 0 ∨ (t2m_min a).getD 0 ≠ 0 ∨
          (precip a).getD 0 ≠ 0 ∨ (windspeed a).getD 0 ≠ 0
      · rw [if_pos h2] at ha
        injection ha with ha
        subst ha
        intro hc
        rcases h2 with h | h | h | h
        · exact h hc.1
        · exact h hc.2.1
        · exact h hc.2.2.1
        · exact h hc.2.2.2
      · rw [if_neg h2] at ha
        cases ha
    · rw [if_neg h1] at ha
      cases ha
  · intro y hy1 hy2 hy3 hy4 w hw
    simp only [fetch_power_data, List.mem_filterMap] at hw
    obtain ⟨a, -, ha⟩ := hw
    by_cases h1 : ((t2m_max a).isSome || (precip a).isSome || (windspeed a).isSome) = true
    · rw [if_pos h1] at ha
      by_cases h2 : (t2m_max a).getD 0 ≠ 0 ∨ (t2m_min a).getD 0 ≠ 0 ∨
          (precip a).getD 0 ≠ 0 ∨ (windspeed a).getD 0 ≠ 0
      · rw [if_pos h2] at ha
        injection ha with ha
        subst ha
        intro hdate
        have hay : a = y := congrArg ObsDate.year hdate
        subst hay
        rcases h2 with h | h | h | h
        · exact h hy1
        · exact h hy2
        · exact h hy3
        · exact h hy4
      · rw [if_neg h2] at ha
        cases ha
    · rw [if_neg h1] at ha
      cases ha

/-- Witness for C10: with only a max temperature of 5 reported for 2020, the
single returned observation has a nonzero field. -/
theorem power_data_nonzero_filter_witness :
    ¬((⟨⟨2020, 1, 1⟩, 5, 0, 0, 0⟩ : WeatherData).temp_max = 0 ∧
      (⟨⟨2020, 1, 1⟩, 5, 0, 0, 0⟩ : WeatherData).temp_min = 0 ∧
      (⟨⟨2020, 1, 1⟩, 5, 0, 0, 0⟩ : WeatherData).precip = 0 ∧
      (⟨⟨2020, 1, 1⟩, 5, 0, 0, 0⟩ : WeatherData).windspeed = 0) :=
  (power_data_nonzero_filter 2020 2023 1 1
      (fun y => if y = 2020 then some 5 else none) (fun _ => none) (fun _ => none)
      (fun _ => none)).1 ⟨⟨2020, 1, 1⟩, 5, 0, 0, 0⟩ (by decide)
